import Mathlib

/-!
Shallow embedding of the core of a bus-tracking system:
the geodesy kernel and ETA engine (frontend/src/utils/locationUtils.js),
the client notification pipeline (frontend/src/utils/notificationUtils.js),
the trip-stat accumulator (backend/routes/buses.js, PATCH /:id/location and
PATCH /:id/reset-distance), and the subscription rooms (backend/server.js).
Machine floats are idealised as real numbers; JS `Date` values are modelled
as real timestamps in milliseconds.
-/

namespace BusTracking

open Real

/-- Model of JavaScript `Math.atan2 y x`, by the standard case analysis on
the signs of the arguments (`Math.atan2 0 0 = 0` in JS). -/
noncomputable def atan2 (y x : ℝ) : ℝ :=
  if 0 < x then Real.arctan (y / x)
  else if x < 0 then
    (if 0 ≤ y then Real.arctan (y / x) + Real.pi else Real.arctan (y / x) - Real.pi)
  else
    (if 0 < y then Real.pi / 2 else if y < 0 then -(Real.pi / 2) else 0)

/-- Coordinate record: `{latitude, longitude}` as used throughout the source. -/
structure Coord where
  latitude : ℝ
  longitude : ℝ

/-- Embeds `toRadians` from locationUtils.js: `degrees * (Math.PI / 180)`. -/
noncomputable def toRadians (degrees : ℝ) : ℝ := degrees * (Real.pi / 180)

/-- Embeds the intermediate value `a` of the haversine formula in
`calculateDistance` (locationUtils.js lines 9-23; the identical formula is
inlined in buses.js lines 157-165 and notificationUtils.js lines 369-381). -/
noncomputable def havA (point1 point2 : Coord) : ℝ :=
  Real.sin (toRadians (point2.latitude - point1.latitude) / 2) *
    Real.sin (toRadians (point2.latitude - point1.latitude) / 2) +
  Real.cos (toRadians point1.latitude) * Real.cos (toRadians point2.latitude) *
    (Real.sin (toRadians (point2.longitude - point1.longitude) / 2) *
      Real.sin (toRadians (point2.longitude - point1.longitude) / 2))

/-- Embeds `calculateDistance` (locationUtils.js): haversine great-circle
distance with Earth radius `R = 6371` km. -/
noncomputable def calculateDistance (point1 point2 : Coord) : ℝ :=
  6371 * (2 * atan2 (Real.sqrt (havA point1 point2)) (Real.sqrt (1 - havA point1 point2)))

/-- Model of JavaScript `Math.round`: floor of `x + 1/2` (ties round up). -/
noncomputable def jsRound (x : ℝ) : ℤ := ⌊x + 1 / 2⌋

/-- Model of the source's two-decimal rounding `Math.round(x * 100) / 100`. -/
noncomputable def jsRound2 (x : ℝ) : ℝ := (jsRound (x * 100) : ℝ) / 100

/-- Result record of `calculateETA` (locationUtils.js lines 41-64):
`{distance, eta, etaText}`, with `eta` the rounded minutes. -/
structure ETAResult where
  distance : ℝ
  eta : ℤ
  etaText : String

/-- Embeds the body of `calculateETA` after the distance has been computed
(locationUtils.js lines 43-63). `timeInMinutes` lives in ℤ; in the final
branch the JS `Math.floor(timeInMinutes / 60)` and `timeInMinutes % 60`
coincide with integer `/` and `%` because that branch only runs for
`timeInMinutes ≥ 60` and the divisor is positive. -/
noncomputable def etaFromDistance (distance averageSpeed : ℝ) : ETAResult :=
  let timeInHours := distance / averageSpeed
  let timeInMinutes : ℤ := jsRound (timeInHours * 60)
  let etaText : String :=
    if timeInMinutes < 1 then "Arriving now"
    else if timeInMinutes = 1 then "1 min"
    else if timeInMinutes < 60 then toString timeInMinutes ++ " mins"
    else toString (timeInMinutes / 60) ++ "h " ++ toString (timeInMinutes % 60) ++ "m"
  { distance := jsRound2 distance, eta := timeInMinutes, etaText := etaText }

/-- Embeds `calculateETA` (locationUtils.js lines 41-64); the default
`averageSpeed` in the source is 30 km/h, passed explicitly here. -/
noncomputable def calculateETA (currentLocation destination : Coord)
    (averageSpeed : ℝ) : ETAResult :=
  etaFromDistance (calculateDistance currentLocation destination) averageSpeed

/-- Spec-side ETA text, written from the spec's words: `<1` gives
"Arriving now", `==1` gives "1 min", `<60` gives "N mins", and `≥60` gives
"Hh Mm" with `H = floor(etaMinutes/60)` and `M = etaMinutes mod 60`. -/
noncomputable def specEtaText (m : ℤ) : String :=
  if m < 1 then "Arriving now"
  else if m = 1 then "1 min"
  else if m < 60 then toString m ++ " mins"
  else toString ⌊(m : ℝ) / 60⌋ ++ "h " ++ toString (m % 60) ++ "m"

/-- Bus stop record: identity label plus coordinate. -/
structure Stop where
  stopName : String
  location : Coord

/-- Body of the scanning loop of `findNearestStop` (locationUtils.js lines
78-84): keep the accumulated (stop, distance) pair unless the new stop is
strictly closer. -/
noncomputable def nearestFoldStep (location : Coord) (acc : Stop × ℝ)
    (s : Stop) : Stop × ℝ :=
  let d := calculateDistance location s.location
  if d < acc.2 then (s, d) else acc

/-- Embeds `findNearestStop` (locationUtils.js lines 72-90): null for a
missing (`!stops`) or empty stops array, otherwise the linear scan from
`stops[0]` via `nearestFoldStep`, returning the winning stop with its
distance rounded to two decimals. -/
noncomputable def findNearestStop (location : Coord)
    (stops : Option (List Stop)) : Option (Stop × ℝ) :=
  match stops with
  | none => none
  | some [] => none
  | some (s0 :: rest) =>
    let best := rest.foldl (nearestFoldStep location)
      (s0, calculateDistance location s0.location)
    some (best.1, jsRound2 best.2)

/-- Payload of a `bus-location-update` event as consumed by the client
notification pipeline: the bus id and its new coordinate. -/
structure BusUpdate where
  busId : String
  location : Coord

/-- Embeds the `stops.reduce` nearest-stop scan inside
`checkAndNotifyBusUpdates` (notificationUtils.js lines 352-355): starts from
null and keeps the stop with the strictly smallest distance seen so far. -/
noncomputable def nearestStopReduce (location : Coord) (stops : List Stop) :
    Option (Stop × ℝ) :=
  stops.foldl (fun nearest stop =>
    let d := calculateDistance location stop.location
    match nearest with
    | none => some (stop, d)
    | some best => if d < best.2 then some (stop, d) else some best) none

/-- Embeds `checkAndNotifyBusUpdates` (notificationUtils.js lines 347-361):
if the update's bus id is among the tracked bus ids and the nearest stop is
within 0.5 km, a browser arrival notification fires (modelled as
`some (stop, distance)`); otherwise nothing fires. The function keeps no
per-(bus, stop) state whatsoever. -/
noncomputable def checkAndNotifyBusUpdates (trackedBuses : List String)
    (busUpdate : BusUpdate) (stops : List Stop) : Option (Stop × ℝ) :=
  if busUpdate.busId ∈ trackedBuses then
    match nearestStopReduce busUpdate.location stops with
    | some best => if best.2 ≤ 0.5 then some best else none
    | none => none
  else none

/-- Count of "approaching" notifications the client fires while processing a
sequence of location updates: the socket listener in BusTracking.jsx lines
128-147 invokes `checkAndNotifyBusUpdates` once per incoming
`bus-location-update`, carrying no de-duplication state between calls. -/
noncomputable def notificationsFired (trackedBuses : List String)
    (stops : List Stop) (updates : List BusUpdate) : ℕ :=
  (updates.map fun u => checkAndNotifyBusUpdates trackedBuses u stops).countP
    fun r => r.isSome

/-- Trip statistics subdocument of the Bus schema (models/Bus.js):
`distanceToday` and `totalDistance` default to 0, `tripStartTime` and
`lastLocation` start unset. Timestamps are milliseconds. -/
structure TripStats where
  distanceToday : ℝ
  totalDistance : ℝ
  tripStartTime : Option ℝ
  lastLocation : Option Coord

/-- Trip stats of a freshly created bus (the schema defaults). -/
def emptyTripStats : TripStats :=
  { distanceToday := 0, totalDistance := 0, tripStartTime := none, lastLocation := none }

/-- Mutable per-bus state touched by the location route: current coordinate,
last-update timestamp, stored speed, and the trip statistics. -/
structure BusState where
  currentLocation : Coord
  lastUpdated : Option ℝ
  speed : ℝ
  tripStats : TripStats

/-- The `bus-location-update` event emitted at the end of the location
route (buses.js lines 201-209): new coordinate, stored speed, timestamp and
a full trip-stats snapshot. -/
structure UpdateEvent where
  location : Coord
  speed : ℝ
  timestamp : Option ℝ
  tripStats : TripStats

/-- Embeds the `distanceIncrement` local of the PATCH `/:id/location`
handler (buses.js lines 151-166): zero on the first sample, otherwise the
haversine distance from `tripStats.lastLocation` to the new coordinate. -/
noncomputable def distanceIncrementOf (bus : BusState) (latitude longitude : ℝ) : ℝ :=
  match bus.tripStats.lastLocation with
  | none => 0
  | some last => calculateDistance last { latitude := latitude, longitude := longitude }

/-- Embeds the PATCH `/:id/location` handler (buses.js lines 130-219):
`calculatedSpeed` starts from `speed || 0`, with derivation only when
`speed` is falsy (absent or zero), the increment is positive, a previous
`lastUpdated` exists and the elapsed time is positive; then the cumulative
distances, the new `lastLocation`, `lastUpdated`, and `tripStartTime` (set
only when previously unset) — returning both the new state and the emitted
`bus-location-update` event. -/
noncomputable def applySample (bus : BusState) (latitude longitude : ℝ)
    (now : ℝ) (speed? : Option ℝ) : BusState × UpdateEvent :=
  let distanceIncrement : ℝ := distanceIncrementOf bus latitude longitude
  let calculatedSpeed : ℝ :=
    if (speed? = none ∨ speed? = some 0) ∧ 0 < distanceIncrement ∧
        bus.lastUpdated ≠ none then
      (if 0 < (now - bus.lastUpdated.getD 0) / (1000 * 60 * 60) then
        distanceIncrement / ((now - bus.lastUpdated.getD 0) / (1000 * 60 * 60))
      else speed?.getD 0)
    else speed?.getD 0
  let newStats : TripStats :=
    { distanceToday := bus.tripStats.distanceToday + distanceIncrement
      totalDistance := bus.tripStats.totalDistance + distanceIncrement
      tripStartTime :=
        match bus.tripStats.tripStartTime with
        | none => some now
        | some t => some t
      lastLocation := some { latitude := latitude, longitude := longitude } }
  let newBus : BusState :=
    { currentLocation := { latitude := latitude, longitude := longitude }
      lastUpdated := some now
      speed := calculatedSpeed
      tripStats := newStats }
  (newBus,
   { location := newBus.currentLocation
     speed := newBus.speed
     timestamp := newBus.lastUpdated
     tripStats := newBus.tripStats })

/-- Embeds the PATCH `/:id/reset-distance` handler (buses.js lines 240-263):
a targeted update setting only `tripStats.distanceToday` to 0 and
`tripStats.tripStartTime` to the current time. -/
def resetDaily (bus : BusState) (atTime : ℝ) : BusState :=
  { bus with tripStats :=
      { bus.tripStats with distanceToday := 0, tripStartTime := some atTime } }

/-- Concrete bus state for concrete evaluations: last accepted sample at the
equator reference point `(0, 0)` at time 1000 ms, stored speed 50 km/h. -/
def sampleBus : BusState :=
  { currentLocation := ⟨0, 0⟩, lastUpdated := some 1000, speed := 50,
    tripStats := { distanceToday := 0, totalDistance := 0,
                   tripStartTime := some 0, lastLocation := some ⟨0, 0⟩ } }

/-- One raw location sample as accepted by the location route. -/
structure Sample where
  latitude : ℝ
  longitude : ℝ
  timestamp : ℝ
  speed? : Option ℝ

/-- Coordinate carried by a sample. -/
def coordOf (s : Sample) : Coord :=
  { latitude := s.latitude, longitude := s.longitude }

/-- State part of one `applySample` call. -/
noncomputable def applySampleState (bus : BusState) (s : Sample) : BusState :=
  (applySample bus s.latitude s.longitude s.timestamp s.speed?).1

/-- Sequential application of a list of samples. -/
noncomputable def runSamples (bus : BusState) (l : List Sample) : BusState :=
  l.foldl applySampleState bus

/-- Sum of the pairwise haversine distances between consecutive coordinates
of a path; the empty and singleton paths contribute 0. -/
noncomputable def pathSum : List Coord → ℝ
  | [] => 0
  | [_] => 0
  | a :: b :: t => calculateDistance a b + pathSum (b :: t)

/-- An operation on a bus's trip state: either a location sample or a
daily-distance reset. -/
inductive Op where
  | sample (s : Sample)
  | reset (atTime : ℝ)

/-- Apply one operation to the bus state. -/
noncomputable def applyOp (bus : BusState) : Op → BusState
  | Op.sample s => applySampleState bus s
  | Op.reset t => resetDaily bus t

/-- Sequential application of an arbitrary interleaving of samples and
resets. -/
noncomputable def runOps (bus : BusState) (l : List Op) : BusState :=
  l.foldl applyOp bus

/-- Interest registry: the socket.io room map used by server.js, a mapping
from room name to the set of connected socket ids. This models the
documented socket.io adapter semantics relied on by the source: each room is
a set of socket ids, `socket.join` adds the id, `socket.leave` removes it,
and a disconnecting socket leaves every room it is in. -/
def Registry := String → Finset String

/-- Room naming used by server.js: the room for a bus id is `bus-` ++ id. -/
def roomName (busId : String) : String := "bus-" ++ busId

/-- Effect of `socket.join room` on the room map. -/
def joinRoom (r : Registry) (room sid : String) : Registry :=
  fun k => if k = room then insert sid (r k) else r k

/-- Effect of `socket.leave room` on the room map. -/
def leaveRoom (r : Registry) (room sid : String) : Registry :=
  fun k => if k = room then (r k).erase sid else r k

/-- Embeds the `join-bus-tracking` handler (server.js lines 58-61). -/
def joinBusTracking (r : Registry) (busId sid : String) : Registry :=
  joinRoom r (roomName busId) sid

/-- Embeds the `leave-bus-tracking` handler (server.js lines 64-67). -/
def leaveBusTracking (r : Registry) (busId sid : String) : Registry :=
  leaveRoom r (roomName busId) sid

/-- Effect of a socket disconnect (server.js lines 80-82): socket.io removes
the socket from every room. -/
def disconnect (r : Registry) (sid : String) : Registry :=
  fun k => (r k).erase sid

/-- Subscriber set used for broadcast: the room for the given bus id, as
consulted by `io.to(room).emit(...)`. -/
def subscribers (r : Registry) (busId : String) : Finset String :=
  r (roomName busId)

end BusTracking

namespace BusTracking

theorem atan2_nonneg {y x : ℝ} (hy : 0 ≤ y) : 0 ≤ atan2 y x := by
  unfold atan2
  by_cases hx : 0 < x
  · simp only [hx, if_true]
    have := Real.arctan_strictMono.monotone (div_nonneg hy hx.le)
    simpa [Real.arctan_zero] using this
  · simp only [hx, if_false]
    by_cases hx' : x < 0
    · simp only [hx', if_true, hy, if_true]
      have h1 : -(Real.pi / 2) < Real.arctan (y / x) := Real.neg_pi_div_two_lt_arctan _
      have h2 : 0 < Real.pi := Real.pi_pos
      linarith
    · simp only [hx', if_false]
      by_cases hy' : 0 < y
      · simp only [hy', if_true]
        have := Real.pi_pos
        linarith
      · simp only [hy', if_false]
        have : ¬ y < 0 := not_lt.mpr hy
        simp [this]

theorem calculateDistance_nonneg (p q : Coord) : 0 ≤ calculateDistance p q := by
  unfold calculateDistance
  have h := atan2_nonneg (x := Real.sqrt (1 - havA p q)) (Real.sqrt_nonneg (havA p q))
  positivity

theorem havA_symm (p q : Coord) : havA p q = havA q p := by
  unfold havA
  have h1 : toRadians (p.latitude - q.latitude) = -(toRadians (q.latitude - p.latitude)) := by
    unfold toRadians; ring
  have h2 : toRadians (p.longitude - q.longitude) =
      -(toRadians (q.longitude - p.longitude)) := by
    unfold toRadians; ring
  rw [h1, h2]
  simp only [neg_div, Real.sin_neg]
  ring

theorem havA_self (p : Coord) : havA p p = 0 := by
  unfold havA toRadians
  simp

theorem calculateDistance_symm (p q : Coord) :
    calculateDistance p q = calculateDistance q p := by
  unfold calculateDistance
  rw [havA_symm]

theorem calculateDistance_self (p : Coord) : calculateDistance p p = 0 := by
  unfold calculateDistance
  rw [havA_self]
  simp [atan2, Real.arctan_zero]

theorem havA_equator_pole : havA ⟨0, 0⟩ ⟨90, 0⟩ = 1 / 2 := by
  have h1 : toRadians ((90 : ℝ) - 0) / 2 = Real.pi / 4 := by
    unfold toRadians; ring
  have h2 : toRadians ((90 : ℝ)) = Real.pi / 2 := by
    unfold toRadians; ring
  have h3 : toRadians ((0 : ℝ) - 0) / 2 = 0 := by
    unfold toRadians; ring
  show Real.sin (toRadians ((90 : ℝ) - 0) / 2) * Real.sin (toRadians ((90 : ℝ) - 0) / 2) +
      Real.cos (toRadians (0 : ℝ)) * Real.cos (toRadians (90 : ℝ)) *
        (Real.sin (toRadians ((0 : ℝ) - 0) / 2) *
          Real.sin (toRadians ((0 : ℝ) - 0) / 2)) = 1 / 2
  rw [h1, h2, h3, Real.sin_pi_div_four, Real.cos_pi_div_two, Real.sin_zero]
  have hs : Real.sqrt 2 * Real.sqrt 2 = 2 := Real.mul_self_sqrt (by norm_num)
  simp only [mul_zero, zero_mul, add_zero]
  rw [div_mul_div_comm, hs]
  norm_num

theorem calculateDistance_equator_pole :
    calculateDistance ⟨0, 0⟩ ⟨90, 0⟩ = 6371 * (Real.pi / 2) := by
  unfold calculateDistance
  rw [havA_equator_pole]
  rw [show (1 : ℝ) - 1 / 2 = 1 / 2 by norm_num]
  have hpos : 0 < Real.sqrt (1 / 2) := Real.sqrt_pos.mpr (by norm_num)
  unfold atan2
  rw [if_pos hpos, div_self hpos.ne', Real.arctan_one]
  ring

theorem calculateDistance_equator_pole_pos :
    0 < calculateDistance ⟨0, 0⟩ ⟨90, 0⟩ := by
  rw [calculateDistance_equator_pole]
  positivity

theorem int_floor_div_sixty (m : ℤ) : ⌊(m : ℝ) / 60⌋ = m / 60 := by
  rw [show ((m : ℝ) / 60) = (((m : ℚ) / 60 : ℚ) : ℝ) by push_cast; ring]
  rw [Rat.floor_cast]
  exact_mod_cast Rat.floor_intCast_div_natCast m 60

theorem etaFromDistance_etaText_spec (d avg : ℝ) :
    (etaFromDistance d avg).etaText = specEtaText ((etaFromDistance d avg).eta) := by
  show (if jsRound (d / avg * 60) < 1 then "Arriving now"
    else if jsRound (d / avg * 60) = 1 then "1 min"
    else if jsRound (d / avg * 60) < 60 then toString (jsRound (d / avg * 60)) ++ " mins"
    else toString (jsRound (d / avg * 60) / 60) ++ "h " ++
      toString (jsRound (d / avg * 60) % 60) ++ "m") = specEtaText (jsRound (d / avg * 60))
  unfold specEtaText
  rw [int_floor_div_sixty]

theorem etaFromDistance_eta_fifteen : (etaFromDistance 7.5 30).eta = 15 := by
  show jsRound (7.5 / 30 * 60) = 15
  unfold jsRound
  rw [show (7.5 : ℝ) / 30 * 60 + 1 / 2 = 15.5 by norm_num]
  rw [Int.floor_eq_iff]
  constructor <;> norm_num

theorem etaFromDistance_eta_zero : (etaFromDistance 0.2 30).eta = 0 := by
  show jsRound (0.2 / 30 * 60) = 0
  unfold jsRound
  rw [show (0.2 : ℝ) / 30 * 60 + 1 / 2 = 0.9 by norm_num]
  rw [Int.floor_eq_iff]
  constructor <;> norm_num

/-- Claim C7: for every pair of coordinates and every average speed,
`calculateETA` returns `etaMinutes = round(distance / averageSpeed * 60)`
and an `etaText` determined from `etaMinutes` exactly as the spec formats
it; in particular distance 7.5 km at the default 30 km/h gives 15 minutes
and "15 mins", and distance 0.2 km gives 0 minutes and "Arriving now". -/
theorem C7_eta_formula (cur dest : Coord) (avg : ℝ) :
    (calculateETA cur dest avg).eta =
      jsRound (calculateDistance cur dest / avg * 60) ∧
    (calculateETA cur dest avg).etaText =
      specEtaText ((calculateETA cur dest avg).eta) ∧
    (etaFromDistance 7.5 30).eta = 15 ∧
    (etaFromDistance 7.5 30).etaText = "15 mins" ∧
    (etaFromDistance 0.2 30).eta = 0 ∧
    (etaFromDistance 0.2 30).etaText = "Arriving now" := by
  refine ⟨rfl, etaFromDistance_etaText_spec _ _, etaFromDistance_eta_fifteen, ?_,
    etaFromDistance_eta_zero, ?_⟩
  · rw [etaFromDistance_etaText_spec, etaFromDistance_eta_fifteen]
    norm_num [specEtaText]
    rfl
  · rw [etaFromDistance_etaText_spec, etaFromDistance_eta_zero]
    norm_num [specEtaText]

theorem applySample_speed_shape (bus : BusState) (lat lng now : ℝ)
    (speed? : Option ℝ) :
    (applySample bus lat lng now speed?).1.speed =
      (if (speed? = none ∨ speed? = some 0) ∧
          0 < distanceIncrementOf bus lat lng ∧ bus.lastUpdated ≠ none then
        (if 0 < (now - bus.lastUpdated.getD 0) / (1000 * 60 * 60) then
          distanceIncrementOf bus lat lng /
            ((now - bus.lastUpdated.getD 0) / (1000 * 60 * 60))
        else speed?.getD 0)
      else speed?.getD 0) := rfl

theorem applySample_event_speed (bus : BusState) (lat lng now : ℝ)
    (speed? : Option ℝ) :
    (applySample bus lat lng now speed?).2.speed =
      (applySample bus lat lng now speed?).1.speed := rfl

theorem applySample_speed_falsy_nonpos (bus : BusState) (lat lng now t : ℝ)
    (hlu : bus.lastUpdated = some t)
    (hel : ¬ 0 < (now - t) / (1000 * 60 * 60)) :
    (applySample bus lat lng now none).1.speed = 0 := by
  rw [applySample_speed_shape, hlu]
  split
  · have hel' : ¬ 0 < (now - (some t : Option ℝ).getD 0) / (1000 * 60 * 60) := by
      simpa using hel
    rw [if_neg hel']
    rfl
  · rfl

theorem applySample_speed_truthy (bus : BusState) (lat lng now s : ℝ)
    (h : s ≠ 0) :
    (applySample bus lat lng now (some s)).1.speed = s ∧
    (applySample bus lat lng now (some s)).2.speed = s := by
  have hmain : (applySample bus lat lng now (some s)).1.speed = s := by
    rw [applySample_speed_shape, if_neg]
    · rfl
    · rintro ⟨h1 | h2, -, -⟩
      · exact Option.noConfusion h1
      · rw [Option.some.injEq] at h2
        exact h h2
  exact ⟨hmain, by rw [applySample_event_speed, hmain]⟩

theorem applySample_speed_derived (bus : BusState) (speed? : Option ℝ)
    (lat lng now t : ℝ)
    (hsp : speed? = none ∨ speed? = some 0)
    (hlu : bus.lastUpdated = some t)
    (hinc : 0 < distanceIncrementOf bus lat lng)
    (hel : 0 < (now - t) / (1000 * 60 * 60)) :
    (applySample bus lat lng now speed?).1.speed =
      distanceIncrementOf bus lat lng / ((now - t) / (1000 * 60 * 60)) := by
  rw [applySample_speed_shape, hlu]
  simp only [Option.getD_some]
  rw [if_pos ⟨hsp, hinc, by simp⟩, if_pos hel]

theorem sampleBus_increment_pos : 0 < distanceIncrementOf sampleBus 90 0 := by
  have h : distanceIncrementOf sampleBus 90 0 = calculateDistance ⟨0, 0⟩ ⟨90, 0⟩ := rfl
  rw [h]
  exact calculateDistance_equator_pole_pos

/-- Claim C2 (amended): for an `applySample` call with no explicitSpeed, a
positive increment, and an existing `lastUpdated` whose elapsed time to the
sample is ≤ 0, the stored speed after the call is 0 — the `speed || 0`
default — rather than the entity's previous speed; no division by zero
occurs and the stored value is not negative. -/
theorem C2_speed_zero_on_nonpos_elapsed (bus : BusState) (lat lng now t : ℝ)
    (hlu : bus.lastUpdated = some t)
    (_hinc : 0 < distanceIncrementOf bus lat lng)
    (hel : (now - t) / (1000 * 60 * 60) ≤ 0) :
    (applySample bus lat lng now none).1.speed = 0 :=
  applySample_speed_falsy_nonpos bus lat lng now t hlu (not_lt.mpr hel)

/-- Claim C2 witness: the amended theorem applied at a concrete input —
previous sample at `(0, 0)` at time 1000 ms, new sample at `(90, 0)` with
the same timestamp (elapsed 0), no explicit speed. -/
theorem C2_witness : (applySample sampleBus 90 0 1000 none).1.speed = 0 :=
  C2_speed_zero_on_nonpos_elapsed sampleBus 90 0 1000 1000 rfl
    sampleBus_increment_pos (by norm_num)

/-- Claim C2 counterexample: at the same concrete input the claim as stated
fails — the previous speed is 50 km/h, all of the claim's conditions hold
(no explicitSpeed, positive increment, existing `lastUpdated`, elapsed
hours = 0), yet the stored speed after the call is 0, not 50. -/
theorem C2_counterexample :
    0 < distanceIncrementOf sampleBus 90 0 ∧
    sampleBus.lastUpdated = some 1000 ∧
    ((1000 : ℝ) - 1000) / (1000 * 60 * 60) ≤ 0 ∧
    sampleBus.speed = 50 ∧
    (applySample sampleBus 90 0 1000 none).1.speed ≠ sampleBus.speed := by
  refine ⟨sampleBus_increment_pos, rfl, by norm_num, rfl, ?_⟩
  have h0 : (applySample sampleBus 90 0 1000 none).1.speed = 0 :=
    applySample_speed_falsy_nonpos sampleBus 90 0 1000 1000 rfl (by norm_num)
  rw [h0]
  show (0 : ℝ) ≠ 50
  norm_num

/-- Claim C3 (amended): when a truthy (nonzero) explicitSpeed is supplied,
the stored speed and the emitted event's speed equal it verbatim; a supplied
explicitSpeed of 0, however, is treated as absent by `speed || 0` and
`!speed`, so it does not satisfy the claim. -/
theorem C3_explicit_speed_verbatim (bus : BusState) (lat lng now s : ℝ)
    (h : s ≠ 0) :
    (applySample bus lat lng now (some s)).1.speed = s ∧
    (applySample bus lat lng now (some s)).2.speed = s :=
  applySample_speed_truthy bus lat lng now s h

/-- Claim C3 witness: the amended theorem at a concrete input with explicit
speed 25 km/h. -/
theorem C3_witness :
    (applySample sampleBus 90 0 1000 (some 25)).1.speed = 25 ∧
    (applySample sampleBus 90 0 1000 (some 25)).2.speed = 25 :=
  C3_explicit_speed_verbatim sampleBus 90 0 1000 25 (by norm_num)

/-- Claim C3 counterexample: with explicitSpeed = 0 supplied, a positive
increment and one elapsed hour, the handler derives the speed from distance
and time instead of storing 0 verbatim — the stored speed is nonzero. -/
theorem C3_counterexample :
    (applySample sampleBus 90 0 3601000 (some 0)).1.speed ≠ 0 := by
  have hd : (applySample sampleBus 90 0 3601000 (some 0)).1.speed =
      distanceIncrementOf sampleBus 90 0 / (((3601000 : ℝ) - 1000) / (1000 * 60 * 60)) :=
    applySample_speed_derived sampleBus (some 0) 90 0 3601000 1000 (Or.inr rfl) rfl
      sampleBus_increment_pos (by norm_num)
  rw [hd]
  rw [show (((3601000 : ℝ) - 1000) / (1000 * 60 * 60)) = 1 by norm_num, div_one]
  exact sampleBus_increment_pos.ne'

theorem applySample_tripStats_shape (bus : BusState) (lat lng now : ℝ)
    (speed? : Option ℝ) :
    (applySample bus lat lng now speed?).1.tripStats =
      { distanceToday := bus.tripStats.distanceToday + distanceIncrementOf bus lat lng
        totalDistance := bus.tripStats.totalDistance + distanceIncrementOf bus lat lng
        tripStartTime :=
          match bus.tripStats.tripStartTime with
          | none => some now
          | some t => some t
        lastLocation := some { latitude := lat, longitude := lng } } := rfl

theorem distanceIncrementOf_some (bus : BusState) (c : Coord) (lat lng : ℝ)
    (h : bus.tripStats.lastLocation = some c) :
    distanceIncrementOf bus lat lng =
      calculateDistance c { latitude := lat, longitude := lng } := by
  unfold distanceIncrementOf
  rw [h]

theorem distanceIncrementOf_none (bus : BusState) (lat lng : ℝ)
    (h : bus.tripStats.lastLocation = none) :
    distanceIncrementOf bus lat lng = 0 := by
  unfold distanceIncrementOf
  rw [h]

theorem runSamples_total_from (l : List Sample) :
    ∀ (bus : BusState) (c : Coord), bus.tripStats.lastLocation = some c →
      (runSamples bus l).tripStats.totalDistance =
        bus.tripStats.totalDistance + pathSum (c :: l.map coordOf) := by
  induction l with
  | nil =>
    intro bus c _
    show bus.tripStats.totalDistance = bus.tripStats.totalDistance + pathSum [c]
    simp [pathSum]
  | cons s t ih =>
    intro bus c hc
    have hstep : (applySampleState bus s).tripStats.lastLocation = some (coordOf s) := rfl
    have htot : (applySampleState bus s).tripStats.totalDistance =
        bus.tripStats.totalDistance + calculateDistance c (coordOf s) := by
      show (applySample bus s.latitude s.longitude s.timestamp s.speed?).1.tripStats.totalDistance =
        bus.tripStats.totalDistance + calculateDistance c (coordOf s)
      rw [applySample_tripStats_shape]
      rw [distanceIncrementOf_some bus c s.latitude s.longitude hc]
      rfl
    have hrun : runSamples bus (s :: t) = runSamples (applySampleState bus s) t := rfl
    rw [hrun, ih (applySampleState bus s) (coordOf s) hstep, htot]
    show bus.tripStats.totalDistance + calculateDistance c (coordOf s) +
        pathSum (coordOf s :: t.map coordOf) =
      bus.tripStats.totalDistance + pathSum (c :: coordOf s :: t.map coordOf)
    rw [show pathSum (c :: coordOf s :: t.map coordOf) =
        calculateDistance c (coordOf s) + pathSum (coordOf s :: t.map coordOf) from rfl]
    ring

/-- Claim C4: starting from an empty trip state, after any sequence of
sequential `applySample` calls the accumulated `totalDistance` equals the
sum of the pairwise haversine distances between consecutive sample
coordinates (the first sample contributing 0) — every increment is taken
against the immediately preceding accepted sample. -/
theorem C4_totalDistance_pathSum (bus : BusState) (l : List Sample)
    (h : bus.tripStats = emptyTripStats) :
    (runSamples bus l).tripStats.totalDistance = pathSum (l.map coordOf) := by
  cases l with
  | nil =>
    show bus.tripStats.totalDistance = pathSum []
    rw [h]
    rfl
  | cons s t =>
    have hstep : (applySampleState bus s).tripStats.lastLocation = some (coordOf s) := rfl
    have htot : (applySampleState bus s).tripStats.totalDistance = 0 := by
      show (applySample bus s.latitude s.longitude s.timestamp s.speed?).1.tripStats.totalDistance = 0
      rw [applySample_tripStats_shape]
      rw [distanceIncrementOf_none bus s.latitude s.longitude (by rw [h]; rfl)]
      show bus.tripStats.totalDistance + 0 = 0
      rw [h]
      show (0 : ℝ) + 0 = 0
      ring
    have hrun : runSamples bus (s :: t) = runSamples (applySampleState bus s) t := rfl
    rw [hrun, runSamples_total_from t (applySampleState bus s) (coordOf s) hstep, htot]
    show 0 + pathSum (coordOf s :: t.map coordOf) = pathSum ((s :: t).map coordOf)
    rw [show (s :: t).map coordOf = coordOf s :: t.map coordOf from rfl]
    ring

/-- Claim C4 witness: the theorem applied to two concrete samples from the
empty trip state — the total distance is exactly the single pairwise
distance between the two coordinates. -/
theorem C4_witness :
    (runSamples
      { currentLocation := ⟨0, 0⟩, lastUpdated := none, speed := 0,
        tripStats := emptyTripStats }
      [{ latitude := 0, longitude := 0, timestamp := 0, speed? := none },
       { latitude := 90, longitude := 0, timestamp := 60000, speed? := none }]
      ).tripStats.totalDistance =
      pathSum [⟨0, 0⟩, ⟨90, 0⟩] :=
  C4_totalDistance_pathSum _ _ rfl

theorem distanceIncrementOf_nonneg (bus : BusState) (lat lng : ℝ) :
    0 ≤ distanceIncrementOf bus lat lng := by
  unfold distanceIncrementOf
  cases bus.tripStats.lastLocation with
  | none => exact le_refl 0
  | some c => exact calculateDistance_nonneg c _

theorem applyOp_invariant (bus : BusState) (op : Op)
    (h : 0 ≤ bus.tripStats.distanceToday ∧
      bus.tripStats.distanceToday ≤ bus.tripStats.totalDistance) :
    0 ≤ (applyOp bus op).tripStats.distanceToday ∧
      (applyOp bus op).tripStats.distanceToday ≤
        (applyOp bus op).tripStats.totalDistance := by
  cases op with
  | sample s =>
    have hinc := distanceIncrementOf_nonneg bus s.latitude s.longitude
    have h1 : (applyOp bus (Op.sample s)).tripStats.distanceToday =
        bus.tripStats.distanceToday + distanceIncrementOf bus s.latitude s.longitude := rfl
    have h2 : (applyOp bus (Op.sample s)).tripStats.totalDistance =
        bus.tripStats.totalDistance + distanceIncrementOf bus s.latitude s.longitude := rfl
    rw [h1, h2]
    constructor
    · linarith [h.1]
    · linarith [h.2]
  | reset t =>
    have h1 : (applyOp bus (Op.reset t)).tripStats.distanceToday = 0 := rfl
    have h2 : (applyOp bus (Op.reset t)).tripStats.totalDistance =
        bus.tripStats.totalDistance := rfl
    rw [h1, h2]
    exact ⟨le_refl 0, by linarith [h.1, h.2]⟩

theorem runOps_invariant (l : List Op) :
    ∀ bus : BusState, 0 ≤ bus.tripStats.distanceToday ∧
      bus.tripStats.distanceToday ≤ bus.tripStats.totalDistance →
    0 ≤ (runOps bus l).tripStats.distanceToday ∧
      (runOps bus l).tripStats.distanceToday ≤
        (runOps bus l).tripStats.totalDistance := by
  induction l with
  | nil => intro bus h; exact h
  | cons op t ih =>
    intro bus h
    have hrun : runOps bus (op :: t) = runOps (applyOp bus op) t := rfl
    rw [hrun]
    exact ih (applyOp bus op) (applyOp_invariant bus op h)

/-- Claim C5: starting from `distanceToday = totalDistance = 0`, the
invariant `distanceToday ≤ totalDistance` holds after any interleaving of
`applySample` and `resetDaily` operations (hence after every individual
call, each prefix being such an interleaving). -/
theorem C5_distanceToday_le_totalDistance (bus : BusState) (l : List Op)
    (h0 : bus.tripStats.distanceToday = 0)
    (h1 : bus.tripStats.totalDistance = 0) :
    (runOps bus l).tripStats.distanceToday ≤
      (runOps bus l).tripStats.totalDistance :=
  (runOps_invariant l bus (by rw [h0, h1]; exact ⟨le_refl 0, le_refl 0⟩)).2

/-- Claim C5 witness: the invariant at a concrete interleaving — a sample,
a reset, then another sample, starting from the zeroed trip state. -/
theorem C5_witness :
    (runOps
      { currentLocation := ⟨0, 0⟩, lastUpdated := none, speed := 0,
        tripStats := emptyTripStats }
      [Op.sample { latitude := 0, longitude := 0, timestamp := 0, speed? := none },
       Op.reset 30000,
       Op.sample { latitude := 90, longitude := 0, timestamp := 60000, speed? := none }]
      ).tripStats.distanceToday ≤
    (runOps
      { currentLocation := ⟨0, 0⟩, lastUpdated := none, speed := 0,
        tripStats := emptyTripStats }
      [Op.sample { latitude := 0, longitude := 0, timestamp := 0, speed? := none },
       Op.reset 30000,
       Op.sample { latitude := 90, longitude := 0, timestamp := 60000, speed? := none }]
      ).tripStats.totalDistance :=
  C5_distanceToday_le_totalDistance _ _ rfl rfl

theorem nearestFold_spec (loc : Coord) (l : List Stop) :
    ∀ b : Stop, ∃ w : Stop,
      l.foldl (nearestFoldStep loc) (b, calculateDistance loc b.location) =
        (w, calculateDistance loc w.location) ∧
      ((w = b ∧ ∀ s ∈ l,
          calculateDistance loc b.location ≤ calculateDistance loc s.location) ∨
       (∃ pre post, l = pre ++ w :: post ∧
         calculateDistance loc w.location < calculateDistance loc b.location ∧
         (∀ s ∈ pre,
           calculateDistance loc w.location < calculateDistance loc s.location) ∧
         (∀ s ∈ post,
           calculateDistance loc w.location ≤ calculateDistance loc s.location))) := by
  induction l with
  | nil =>
    intro b
    exact ⟨b, List.foldl_nil .., Or.inl ⟨rfl, by intro s hs; cases hs⟩⟩
  | cons s t ih =>
    intro b
    by_cases hlt : calculateDistance loc s.location < calculateDistance loc b.location
    · have hstep : nearestFoldStep loc (b, calculateDistance loc b.location) s =
          (s, calculateDistance loc s.location) := by
        unfold nearestFoldStep
        exact if_pos hlt
      obtain ⟨w, hw, hcase⟩ := ih s
      refine ⟨w, ?_, ?_⟩
      · rw [List.foldl_cons, hstep]
        exact hw
      · rcases hcase with ⟨hwb, hmin⟩ | ⟨pre, post, hl, hlts, hpre, hpost⟩
        · refine Or.inr ⟨[], t, ?_, ?_, ?_, ?_⟩
          · rw [hwb]; rfl
          · rw [hwb]; exact hlt
          · intro x hx; cases hx
          · intro x hx
            have := hmin x hx
            rw [hwb]
            exact this
        · refine Or.inr ⟨s :: pre, post, ?_, ?_, ?_, hpost⟩
          · rw [hl]; rfl
          · exact lt_trans hlts hlt
          · intro x hx
            rcases List.mem_cons.mp hx with hx1 | hx2
            · rw [hx1]; exact hlts
            · exact hpre x hx2
    · have hstep : nearestFoldStep loc (b, calculateDistance loc b.location) s =
          (b, calculateDistance loc b.location) := by
        unfold nearestFoldStep
        exact if_neg hlt
      obtain ⟨w, hw, hcase⟩ := ih b
      refine ⟨w, ?_, ?_⟩
      · rw [List.foldl_cons, hstep]
        exact hw
      · rcases hcase with ⟨hwb, hmin⟩ | ⟨pre, post, hl, hltb, hpre, hpost⟩
        · refine Or.inl ⟨hwb, ?_⟩
          intro x hx
          rcases List.mem_cons.mp hx with hx1 | hx2
          · rw [hx1]; exact not_lt.mp hlt
          · exact hmin x hx2
        · refine Or.inr ⟨s :: pre, post, ?_, hltb, ?_, hpost⟩
          · rw [hl]; rfl
          · intro x hx
            rcases List.mem_cons.mp hx with hx1 | hx2
            · rw [hx1]
              exact lt_of_lt_of_le hltb (not_lt.mp hlt)
            · exact hpre x hx2

/-- Claim C10: `findNearestStop` returns null on an absent or empty stops
list; on a non-empty list it returns a stop of the list together with its
rounded distance, that stop being at minimal distance, and being the
first-encountered among stops attaining the minimum (every stop strictly
before it in the list is strictly farther). -/
theorem C10_findNearestStop (loc : Coord) (s0 : Stop) (rest : List Stop) :
    (∀ p : Coord, findNearestStop p none = none) ∧
    (∀ p : Coord, findNearestStop p (some []) = none) ∧
    ∃ w pre post,
      findNearestStop loc (some (s0 :: rest)) =
        some (w, jsRound2 (calculateDistance loc w.location)) ∧
      s0 :: rest = pre ++ w :: post ∧
      (∀ s ∈ s0 :: rest,
        calculateDistance loc w.location ≤ calculateDistance loc s.location) ∧
      (∀ s ∈ pre,
        calculateDistance loc w.location < calculateDistance loc s.location) := by
  refine ⟨fun _ => rfl, fun _ => rfl, ?_⟩
  obtain ⟨w, hw, hcase⟩ := nearestFold_spec loc rest s0
  have hfind : findNearestStop loc (some (s0 :: rest)) =
      some (w, jsRound2 (calculateDistance loc w.location)) := by
    show some ((rest.foldl (nearestFoldStep loc)
        (s0, calculateDistance loc s0.location)).1,
      jsRound2 (rest.foldl (nearestFoldStep loc)
        (s0, calculateDistance loc s0.location)).2) = _
    rw [hw]
  rcases hcase with ⟨hwb, hmin⟩ | ⟨pre, post, hl, hltb, hpre, hpost⟩
  · refine ⟨w, [], rest, hfind, by rw [hwb]; rfl, ?_, ?_⟩
    · intro s hs
      rcases List.mem_cons.mp hs with hs1 | hs2
      · rw [hs1, hwb]
      · rw [hwb]; exact hmin s hs2
    · intro s hs; cases hs
  · refine ⟨w, s0 :: pre, post, hfind, by rw [hl]; rfl, ?_, ?_⟩
    · intro s hs
      rcases List.mem_cons.mp hs with hs1 | hs2
      · rw [hs1]; exact hltb.le
      · rw [hl] at hs2
        rcases List.mem_append.mp hs2 with hsp | hsc
        · exact (hpre s hsp).le
        · rcases List.mem_cons.mp hsc with hsw | hspost
          · rw [hsw]
          · exact hpost s hspost
    · intro s hs
      rcases List.mem_cons.mp hs with hs1 | hs2
      · rw [hs1]; exact hltb
      · exact hpre s hs2

/-- Claim C8: the subscription-room operations are idempotent — joining a
bus room twice equals joining it once, leaving a room one is not in leaves
the registry unchanged, and a disconnect removes the socket from every
room, leaving no residual membership anywhere. -/
theorem C8_registry_idempotent (r : Registry) (e o : String) :
    joinBusTracking (joinBusTracking r e o) e o = joinBusTracking r e o ∧
    (o ∉ subscribers r e → leaveBusTracking r e o = r) ∧
    (∀ busId : String, o ∉ subscribers (disconnect r o) busId) := by
  refine ⟨?_, ?_, ?_⟩
  · funext k
    unfold joinBusTracking joinRoom
    by_cases hk : k = roomName e
    · simp [hk]
    · simp [hk]
  · intro ho
    funext k
    unfold leaveBusTracking leaveRoom
    by_cases hk : k = roomName e
    · subst hk
      simp only [if_pos rfl]
      exact Finset.erase_eq_of_not_mem ho
    · simp [hk]
  · intro busId
    exact Finset.not_mem_erase o _

/-- Claim C8 witness: the theorem at a concrete registry (all rooms empty),
with the leave-a-non-member hypothesis discharged on the empty room. -/
theorem C8_witness :
    joinBusTracking (joinBusTracking (fun _ => ∅) "7" "s1") "7" "s1" =
      joinBusTracking (fun _ => ∅) "7" "s1" ∧
    leaveBusTracking (fun _ => (∅ : Finset String)) "7" "s1" = (fun _ => ∅) ∧
    (∀ busId : String,
      "s1" ∉ subscribers (disconnect (fun _ => ∅) "s1") busId) := by
  obtain ⟨h1, h2, h3⟩ := C8_registry_idempotent (fun _ => ∅) "7" "s1"
  exact ⟨h1, h2 (Finset.not_mem_empty _), h3⟩

/-- Claim C1 evaluated against the code at the failing input: one tracked
bus, one stop, and two consecutive location updates both inside the 0.5 km
radius (at the stop itself). The client pipeline fires a notification for
each of the two samples — two notifications during one continuous
in-radius interval — because `checkAndNotifyBusUpdates` keeps no
per-(bus, stop) de-duplication state; the spec requires at most one. -/
theorem C1_fires_on_every_inradius_sample :
    notificationsFired ["b1"] [{ stopName := "Central", location := ⟨20, 85⟩ }]
      [{ busId := "b1", location := ⟨20, 85⟩ },
       { busId := "b1", location := ⟨20, 85⟩ }] = 2 ∧ ¬ (2 : ℕ) ≤ 1 := by
  constructor
  · have hd : calculateDistance ⟨20, 85⟩ ⟨20, 85⟩ = 0 := calculateDistance_self _
    have hone : checkAndNotifyBusUpdates ["b1"] { busId := "b1", location := ⟨20, 85⟩ }
        [{ stopName := "Central", location := ⟨20, 85⟩ }] =
        some ({ stopName := "Central", location := ⟨20, 85⟩ }, 0) := by
      unfold checkAndNotifyBusUpdates nearestStopReduce
      rw [if_pos (by simp)]
      simp only [List.foldl_cons, List.foldl_nil, hd]
      rw [if_pos (by norm_num)]
    unfold notificationsFired
    simp [hone]
  · norm_num

/-- Claim C9: for all coordinates `a` and `b`, `calculateDistance a b =
calculateDistance b a` and `calculateDistance a a = 0`; the haversine
distance with Earth radius 6371 km is a pure total function on coordinates
(totality is expressed by its Lean type). -/
theorem C9_distance_symm_self (a b : Coord) :
    calculateDistance a b = calculateDistance b a ∧ calculateDistance a a = 0 :=
  ⟨calculateDistance_symm a b, calculateDistance_self a⟩

/-- Claim C6: `resetDaily` sets `distanceToday` to 0 and `tripStartTime` to
the given timestamp, and leaves `totalDistance`, `lastLocation`, the current
coordinate, the stored speed and `lastUpdated` unchanged. -/
theorem C6_resetDaily_frame (bus : BusState) (t : ℝ) :
    (resetDaily bus t).tripStats.distanceToday = 0 ∧
    (resetDaily bus t).tripStats.tripStartTime = some t ∧
    (resetDaily bus t).tripStats.totalDistance = bus.tripStats.totalDistance ∧
    (resetDaily bus t).tripStats.lastLocation = bus.tripStats.lastLocation ∧
    (resetDaily bus t).currentLocation = bus.currentLocation ∧
    (resetDaily bus t).lastUpdated = bus.lastUpdated ∧
    (resetDaily bus t).speed = bus.speed :=
  ⟨rfl, rfl, rfl, rfl, rfl, rfl, rfl⟩

end BusTracking
